import Mathlib

/-!
Verification development for the osgEarth BuildGeometryFilter
(src/src/osgEarthFeatures/BuildGeometryFilter.cpp).

The filter compiles a batch of vector features (points, polylines, polygons
with holes) plus a style into a renderable mesh batch.  The shallow embedding
below models the pipeline of BuildGeometryFilter::process, ::buildPolygon and
::push.  External collaborators that live outside the translated file
(geometry validator, tessellator, mesh subdivider, stroke polygonizer,
coordinate transform) are modelled from their documented contracts and kept
abstract as parameters of a Collab record, so every theorem quantifies over
their behaviour unless the contract pins it down.
-/

namespace OsgEarth

/-- 3-D vertex in the local frame.  Coordinates are exact rationals; none of
the verified properties depend on floating-point rounding. -/
abbrev Vec3 := ℚ × ℚ × ℚ

def vecAdd (a b : Vec3) : Vec3 := (a.1 + b.1, a.2.1 + b.2.1, a.2.2 + b.2.2)

def vecSub (a b : Vec3) : Vec3 := (a.1 - b.1, a.2.1 - b.2.1, a.2.2 - b.2.2)

/-- The half-unit vector used for the single-point initial bound
(osg::Vec3(.5,.5,.5) at line 198 of the source). -/
def halfVec : Vec3 := (1/2, 1/2, 1/2)

/-- RGBA color (osg::Vec4f). -/
structure Color where
  r : ℚ
  g : ℚ
  b : ℚ
  a : ℚ
deriving DecidableEq, Repr

/-- Opaque white, the fallback primary color (osg::Vec4f(1,1,1,1)). -/
def whiteColor : Color := ⟨1, 1, 1, 1⟩

/-- Width units of a stroke: Units::PIXELS versus any world unit.  The code
only tests widthUnits() != Units::PIXELS, so a two-valued model is exact. -/
inductive WidthUnits
  | PIXELS
  | WORLD
deriving DecidableEq, Repr

/-- Stroke of a LineSymbol: color, width and width units. -/
structure Stroke where
  color : Color
  width : ℚ
  widthUnits : WidthUnits
deriving DecidableEq, Repr

/-- LineSymbol: stroke plus the optional tessellation count whose sentinel
value 0 disables mesh subdivision. -/
structure LineSymbol where
  stroke : Stroke
  tessellation : Option ℕ
deriving DecidableEq, Repr

/-- PolygonSymbol: fill color. -/
structure PolygonSymbol where
  fill : Color
deriving DecidableEq, Repr

/-- PointSymbol: fill color and optional point size. -/
structure PointSymbol where
  fill : Color
  sizeOpt : Option ℚ
deriving DecidableEq, Repr

/-- A Style is a mapping from symbol kind to symbol instance; this core reads
exactly the three kinds below (Style::get of PointSymbol, LineSymbol,
PolygonSymbol). -/
structure Style where
  point : Option PointSymbol
  line : Option LineSymbol
  poly : Option PolygonSymbol
deriving DecidableEq, Repr

/-- Style::remove of LineSymbol. -/
def Style.removeLine (s : Style) : Style := { s with line := none }

/-- Style::remove of PolygonSymbol. -/
def Style.removePoly (s : Style) : Style := { s with poly := none }

/-- Style::empty: no symbols at all. -/
def Style.isEmpty (s : Style) : Bool :=
  s.point.isNone && s.line.isNone && s.poly.isNone

/-- Geometry type tags (Geometry::Type). -/
inductive GeomType
  | UNKNOWN
  | POINTSET
  | LINESTRING
  | RING
  | POLYGON
deriving DecidableEq, Repr

/-- A hole ring of a polygon.  Modelled from the spec: the geometry validator
(Geometry::isValid, declared outside the translated file) reports a ring as
valid or invalid (degenerate or self-intersecting); the verdict is carried as
an abstract flag. -/
structure GeoRing where
  points : List Vec3
  validFlag : Bool
deriving DecidableEq, Repr

def GeoRing.isValid (r : GeoRing) : Bool := r.validFlag

/-- A leaf geometry part as yielded by GeometryIterator (depth-first leaves of
the possibly-multi geometry).  Modelled from the spec for the parts of the
Geometry class that live outside the translated file: a POLYGON part has an
outer ring (its own points) plus hole rings; other parts have no holes.  The
validator verdict on the part itself (outer ring) is an abstract flag, as for
GeoRing. -/
structure GeoPart where
  type : GeomType
  points : List Vec3
  holes : List GeoRing
  validFlag : Bool
deriving DecidableEq, Repr

/-- Geometry::size — the number of points of the part itself (outer ring for
a polygon). -/
def GeoPart.size (p : GeoPart) : ℕ := p.points.length

/-- Geometry::getTotalPointCount — own points plus the points of all holes. -/
def GeoPart.getTotalPointCount (p : GeoPart) : ℕ :=
  p.points.length + (p.holes.map fun h => h.points.length).sum

def GeoPart.isValid (p : GeoPart) : Bool := p.validFlag

/-- Geodetic interpolation mode. -/
inductive GeoInterp
  | GREAT_CIRCLE
  | RHUMB_LINE
deriving DecidableEq, Repr

/-- A feature: leaf geometry parts, an optional per-feature style override,
an optional geodetic interpolation mode. -/
structure Feature where
  parts : List GeoPart
  styleOv : Option Style
  geoInterp : Option GeoInterp
deriving DecidableEq, Repr

/-- Filter context: georeferencing flag, whether the map is geocentric, and
whether a feature index sink is attached. -/
structure FilterContext where
  isGeoreferenced : Bool
  mapIsGeocentric : Bool
  hasFeatureIndex : Bool
deriving DecidableEq, Repr

/-- The filter configuration state set at construction:
style, maxAngle_deg (default 1), geoInterp default (RHUMB_LINE),
optional feature-name expression, vertex-buffer-object flag. -/
structure BuildGeometryFilter where
  style : Style
  maxAngle_deg : ℚ
  geoInterp : GeoInterp
  featureNameExpr : Option String
  useVertexBufferObjects : Bool
deriving DecidableEq, Repr

/-- GL primitive modes used by the filter. -/
inductive PrimMode
  | GL_POINTS
  | GL_LINE_STRIP
  | GL_LINE_LOOP
  | GL_TRIANGLES
deriving DecidableEq, Repr

/-- osg::DrawArrays — mode, first index, count. -/
structure DrawArrays where
  mode : PrimMode
  first : ℕ
  count : ℕ
deriving DecidableEq, Repr

/-- osgUtil::Tessellator tessellation type (only the values the filter can
set). -/
inductive TessType
  | TESS_TYPE_GEOMETRY
  | TESS_TYPE_POLYGONS
deriving DecidableEq, Repr

/-- osgUtil::Tessellator winding rule (only the values the filter can set). -/
inductive TessWinding
  | TESS_WINDING_POSITIVE
  | TESS_WINDING_ODD
deriving DecidableEq, Repr

/-- Record of a tessellator invocation on a draw geometry. -/
structure TessCall where
  ttype : TessType
  winding : TessWinding
deriving DecidableEq, Repr

/-- An angle in radians, represented exactly as a rational multiple of pi.
Every angle the filter computes has this form (DegreesToRadians multiplies a
degree value by pi/180), so the representation is exact and computable. -/
structure Radians where
  piCoeff : ℚ
deriving DecidableEq, Repr

/-- Semantic value of a Radians angle, in real radians.  Used only in theorem
statements, never in the executable model. -/
noncomputable def Radians.toReal (a : Radians) : ℝ := (a.piCoeff : ℝ) * Real.pi

/-- osg::DegreesToRadians: deg * pi / 180. -/
def osgDegreesToRadians (deg : ℚ) : Radians := ⟨deg / 180⟩

/-- Record of a MeshSubdivider::run invocation: angular threshold in radians
and interpolation mode.  (The localizer matrix pair is fixed per push and
carried by the collaborator, so it is not recorded here.) -/
structure SubdivCall where
  threshold : Radians
  interp : GeoInterp
deriving DecidableEq, Repr

inductive ColorBinding
  | BIND_PER_VERTEX
  | BIND_OVERALL
deriving DecidableEq, Repr

/-- A draw geometry (osg::Geometry) as built by the filter: optional name,
VBO flag, optional vertex array (none models a null vertex array), primitive
sets, records of tessellator and subdivider invocations, color array and
binding, render-state entries from applyLineSymbology / applyPointSymbology,
and the optional explicit initial bound. -/
structure DrawGeom where
  name : Option String
  useVBO : Bool
  verts : Option (List Vec3)
  primSets : List DrawArrays
  tessCall : Option TessCall
  subdivCall : Option SubdivCall
  colors : Option (List Color)
  colorBinding : Option ColorBinding
  lineState : Option LineSymbol
  pointState : Option PointSymbol
  initialBound : Option (Vec3 × Vec3)
deriving DecidableEq, Repr

/-- The abstract external collaborators of the filter, as functions.
Modelled from the spec: the coordinate transform (transformAndLocalize maps
each input point through reprojection, optional ECEF conversion and the
world-to-local matrix), the tessellator rewrite of primitive sets, the mesh
subdivider, and the stroke polygonizer ribbon output.  Every theorem holds
for an arbitrary Collab unless the contract of the collaborator pins the
behaviour down. -/
structure Collab where
  xform : Vec3 → Vec3
  tessRewrite : List DrawArrays → List DrawArrays
  subdivRun : SubdivCall → List Vec3 → List DrawArrays → List Vec3 × List DrawArrays
  ribbonVerts : Stroke → List Vec3 → List Vec3
  ribbonTriCount : Stroke → List Vec3 → ℕ

/-- transformAndLocalize contract (spec section 4.3): reproject, optionally
convert to ECEF, localize — one output point per input point — and APPEND to
the destination array (so hole rings share the outer ring array). -/
def transformAndLocalize (c : Collab) (src : List Vec3) (dst : List Vec3) : List Vec3 :=
  dst ++ src.map c.xform

/-- Modelled from the spec: PolygonizeLinesOperator (declared outside the
translated file) returns a triangulated ribbon geometry — a vertex array plus
a single TRIANGLES primitive set.  The ribbon vertex data and triangle count
are abstract collaborator outputs. -/
def polygonizeLines (c : Collab) (stroke : Stroke) (pts : List Vec3) : DrawGeom :=
  { name := none
    useVBO := true
    verts := some (c.ribbonVerts stroke pts)
    primSets := [⟨.GL_TRIANGLES, 0, c.ribbonTriCount stroke pts⟩]
    tessCall := none
    subdivCall := none
    colors := none
    colorBinding := none
    lineState := none
    pointState := none
    initialBound := none }

/-- The hole loop of BuildGeometryFilter::buildPolygon (source lines
341-351): for each valid hole, append its transformed points to the shared
vertex array, emit a LINE_LOOP DrawArrays at the running offset, and advance
the offset by the hole size; invalid holes are skipped. -/
def buildPolyHoles (c : Collab) :
    List GeoRing → List Vec3 → List DrawArrays → ℕ → List Vec3 × List DrawArrays
  | [], pts, ps, _ => (pts, ps)
  | h :: rest, pts, ps, off =>
    if h.isValid then
      buildPolyHoles c rest (transformAndLocalize c h.points pts)
        (ps ++ [⟨.GL_LINE_LOOP, off, h.points.length⟩]) (off + h.points.length)
    else
      buildPolyHoles c rest pts ps off

/-- Specification-side description of the hole primitive sets: one LINE_LOOP
per hole, spanning the offset that accumulates the sizes of all previously
accepted rings. -/
def holeLoopsSpec (off : ℕ) : List GeoRing → List DrawArrays
  | [] => []
  | h :: rest => ⟨.GL_LINE_LOOP, off, h.points.length⟩ :: holeLoopsSpec (off + h.points.length) rest

/-- BuildGeometryFilter::buildPolygon (source lines 318-361): skip an invalid
ring entirely; otherwise transform the outer ring into a fresh array, emit a
LINE_LOOP over it, do the same for each valid hole of a polygon at the
accumulated offset, bind the vertex array, and optionally run the tessellator
with GEOMETRY type and POSITIVE winding, which rewrites the primitive sets in
place. -/
def buildPolygon (c : Collab) (ring : GeoPart) (tessellate : Bool) (osgGeom : DrawGeom) : DrawGeom :=
  if ring.isValid then
    let allPoints := transformAndLocalize c ring.points []
    let ps0 := osgGeom.primSets ++ [⟨.GL_LINE_LOOP, 0, ring.size⟩]
    let built :=
      if ring.type = GeomType.POLYGON then
        buildPolyHoles c ring.holes allPoints ps0 ring.size
      else
        (allPoints, ps0)
    let g2 : DrawGeom := { osgGeom with verts := some built.1, primSets := built.2 }
    if tessellate then
      { g2 with
        tessCall := some ⟨.TESS_TYPE_GEOMETRY, .TESS_WINDING_POSITIVE⟩
        primSets := c.tessRewrite g2.primSets }
    else g2
  else osgGeom

/-- The per-part style (source line 100): the feature override when set,
otherwise the filter style. -/
def activeStyle (f : BuildGeometryFilter) (input : Feature) : Style :=
  input.styleOv.getD f.style

/-- Render-type resolution (source lines 110-136): polygon symbol with a
compatible part first, then line symbol, then point symbol, then the part
type itself. -/
def resolveRenderType (myStyle : Style) (part : GeoPart) : GeomType :=
  if myStyle.poly.isSome ∧ part.type ≠ GeomType.POINTSET ∧ 3 ≤ part.getTotalPointCount then
    GeomType.POLYGON
  else if myStyle.line.isSome then
    (if part.type = GeomType.POLYGON then GeomType.RING else part.type)
  else if myStyle.point.isSome then
    GeomType.POINTSET
  else
    part.type

/-- Specification-side restatement of the render-type priority table, written
from the words of the spec (section 4.2). -/
def specRenderType (myStyle : Style) (part : GeoPart) : GeomType :=
  if myStyle.poly.isSome ∧ part.type ≠ GeomType.POINTSET ∧ 3 ≤ part.getTotalPointCount then
    GeomType.POLYGON
  else if myStyle.line.isSome then
    (if part.type = GeomType.POLYGON then GeomType.RING else part.type)
  else if myStyle.point.isSome then
    GeomType.POINTSET
  else
    part.type

/-- Primary color resolution (source lines 145-149): polygon fill, else line
stroke, else point fill, else opaque white. -/
def primaryColorOf (myStyle : Style) : Color :=
  match myStyle.poly with
  | some ps => ps.fill
  | none =>
    match myStyle.line with
    | some ls => ls.stroke.color
    | none =>
      match myStyle.point with
      | some pts => pts.fill
      | none => whiteColor

/-- Specification-side restatement of the primary-color order, written from
the words of the spec (section 4.2). -/
def specPrimaryColor (myStyle : Style) : Color :=
  if h : myStyle.poly.isSome then (myStyle.poly.get h).fill
  else if h : myStyle.line.isSome then (myStyle.line.get h).stroke.color
  else if h : myStyle.point.isSome then (myStyle.point.get h).fill
  else whiteColor

/-- The explicit tessellation-disable check of process (source lines
209-211): it consults the line symbol of the FILTER style (the member
_style), not the per-feature override. -/
def disableTess (f : BuildGeometryFilter) : Bool :=
  match f.style.line with
  | some ls => ls.tessellation == some 0
  | none => false

/-- The freshly allocated osg::Geometry of process (source lines 151-158):
VBO flag from the filter, name from the feature-name expression when set. -/
def freshGeom (f : BuildGeometryFilter) : DrawGeom :=
  { name := f.featureNameExpr
    useVBO := f.useVertexBufferObjects
    verts := none
    primSets := []
    tessCall := none
    subdivCall := none
    colors := none
    colorBinding := none
    lineState := none
    pointState := none
    initialBound := none }

/-- The primitive mode selection of process (source lines 171-174):
LINE_STRIP for LINESTRING, LINE_LOOP for RING, POINTS otherwise. -/
def primModeFor (renderType : GeomType) : PrimMode :=
  if renderType = GeomType.LINESTRING then PrimMode.GL_LINE_STRIP
  else if renderType = GeomType.RING then PrimMode.GL_LINE_LOOP
  else PrimMode.GL_POINTS

/-- The single-point bounding-box special case of process (source lines
195-199): a one-point POINTS geometry receives an explicit half-unit box
around its point. -/
def applyPointBound (primMode : PrimMode) (allPoints : List Vec3) (g : DrawGeom) : DrawGeom :=
  match primMode, allPoints with
  | PrimMode.GL_POINTS, [center] =>
    { g with initialBound := some (vecSub center halfVec, vecAdd center halfVec) }
  | _, _ => g

/-- The line-or-point branch of process (source lines 168-199): when a line
symbol with non-pixel width units is in force, the stroke polygonizer output
replaces the draw geometry entirely; otherwise a single DrawArrays over the
whole transformed array is emitted and the symbol render state is applied. -/
def buildLinePoint (c : Collab) (g0 : DrawGeom) (lineSymbol : Option LineSymbol)
    (pointSymbol : Option PointSymbol) (renderType : GeomType) (allPoints : List Vec3) :
    DrawGeom :=
  let primMode := primModeFor renderType
  let base : DrawGeom :=
    { g0 with
      primSets := [⟨primMode, 0, allPoints.length⟩]
      verts := some allPoints
      lineState := lineSymbol
      pointState := pointSymbol }
  let gA :=
    match lineSymbol with
    | some ls =>
      if ls.stroke.widthUnits ≠ WidthUnits.PIXELS then polygonizeLines c ls.stroke allPoints
      else base
    | none => base
  applyPointBound primMode allPoints gA

/-- The subdivision step of process (source lines 206-225): in geocentric
output, for a non-POINTSET render type, unless the filter-style line symbol
carries tessellation set to 0, run the mesh subdivider with the threshold
maxAngle_deg converted to radians and the per-feature interpolation mode when
set (else the filter default). -/
def subdivStep (c : Collab) (f : BuildGeometryFilter) (input : Feature) (makeECEF : Bool)
    (renderType : GeomType) (g : DrawGeom) (vs : List Vec3) : DrawGeom :=
  if makeECEF = true ∧ renderType ≠ GeomType.POINTSET then
    if makeECEF = true ∧ disableTess f = false then
      let call : SubdivCall :=
        ⟨osgDegreesToRadians f.maxAngle_deg, input.geoInterp.getD f.geoInterp⟩
      let r := c.subdivRun call vs g.primSets
      { g with verts := some r.1, primSets := r.2, subdivCall := some call }
    else g
  else g

/-- The primary-color assignment of process (source lines 235-238): allocate
a color array of one entry per vertex of the final vertex array, all equal to
the primary color, bound per vertex. -/
def colorStep (g : DrawGeom) (col : Color) : DrawGeom :=
  { g with
    colors := some (List.replicate (g.verts.getD []).length col)
    colorBinding := some ColorBinding.BIND_PER_VERTEX }

/-- The geometry-build dispatch of process (source lines 160-200): polygon
render types go through buildPolygon with tessellation requested, everything
else through the line-or-point builder over the transformed part points. -/
def processPartG1 (c : Collab) (f : BuildGeometryFilter) (input : Feature) (part : GeoPart) :
    DrawGeom :=
  let myStyle := activeStyle f input
  let renderType := resolveRenderType myStyle part
  if renderType = GeomType.POLYGON then
    buildPolygon c part true (freshGeom f)
  else
    buildLinePoint c (freshGeom f) myStyle.line myStyle.point renderType
      (transformAndLocalize c part.points [])

/-- Outcome of processing one leaf part: skipped without output, aborted by a
null-pointer dereference (source lines 202-204 read the vertex array without
a null check), or an emitted draw geometry. -/
inductive PartOut
  | skipped
  | crash
  | emitted (g : DrawGeom)
deriving DecidableEq, Repr

def PartOut.isEmitted : PartOut → Bool
  | .emitted _ => true
  | _ => false

/-- One iteration of the part loop of BuildGeometryFilter::process (source
lines 92-245): skip empty parts, resolve the render type from the active
style, validate the minimum point counts, build the geometry, fetch the
vertex array (a null array is a crash), subdivide when required, and assign
per-vertex primary colors. -/
def processPart (c : Collab) (f : BuildGeometryFilter) (input : Feature) (part : GeoPart)
    (makeECEF : Bool) : PartOut :=
  if part.size = 0 then PartOut.skipped
  else
    let myStyle := activeStyle f input
    let renderType := resolveRenderType myStyle part
    if renderType = GeomType.POLYGON ∧ part.size < 3 then PartOut.skipped
    else if (renderType = GeomType.LINESTRING ∨ renderType = GeomType.RING) ∧ part.size < 2 then
      PartOut.skipped
    else
      let g1 := processPartG1 c f input part
      match g1.verts with
      | none => PartOut.crash
      | some vs =>
        PartOut.emitted
          (colorStep (subdivStep c f input makeECEF renderType g1 vs) (primaryColorOf myStyle))

/-- The part loop over one feature: emitted geometries are collected in
order; a crash aborts the whole run (none). -/
def processParts (c : Collab) (f : BuildGeometryFilter) (input : Feature) (makeECEF : Bool) :
    List GeoPart → Option (List DrawGeom)
  | [] => some []
  | p :: rest =>
    match processPart c f input p makeECEF with
    | PartOut.skipped => processParts c f input makeECEF rest
    | PartOut.crash => none
    | PartOut.emitted g =>
      match processParts c f input makeECEF rest with
      | none => none
      | some gs => some (g :: gs)

/-- The feature loop of process (source lines 87-312). -/
def processFeatures (c : Collab) (f : BuildGeometryFilter) (makeECEF : Bool) :
    List Feature → Option (List DrawGeom)
  | [] => some []
  | ft :: rest =>
    match processParts c f ft makeECEF ft.parts with
    | none => none
    | some gs =>
      match processFeatures c f makeECEF rest with
      | none => none
      | some gs2 => some (gs ++ gs2)

/-- Whether vertices go to geocentric ECEF (source lines 76-85). -/
def makeECEFOf (ctx : FilterContext) : Bool :=
  ctx.isGeoreferenced && ctx.mapIsGeocentric

/-- BuildGeometryFilter::process: runs the feature loop and returns the
drawables added to the geode together with the C++ return value, which is the
constant true (source line 314).  none models the aborting crash. -/
def process (c : Collab) (f : BuildGeometryFilter) (features : List Feature)
    (ctx : FilterContext) : Option (List DrawGeom × Bool) :=
  match processFeatures c f (makeECEFOf ctx) features with
  | none => none
  | some gs => some (gs, true)

/-- The node handed out by push: the geode drawables, whether consolidation
ran, the point-size and line-width state applied to the geode, and the
delocalizing transform wrap. -/
structure PushNode where
  drawables : List DrawGeom
  consolidated : Bool
  pointSize : Option ℚ
  lineWidthState : Option ℚ
  delocalized : Bool
deriving DecidableEq, Repr

/-- Result of a completed push call: the returned node (none corresponds to
the ok = false branch of the source), the filter style as stored after push
returns, and the styles under which process ran, in order. -/
structure PushResult where
  node : Option PushNode
  finalStyle : Style
  passStyles : List Style
deriving DecidableEq, Repr

/-- The tail of BuildGeometryFilter::push (source lines 418-456):
consolidation when no feature-name expression is set, then — when ok — the
point/line render state from the current style and the delocalized node. -/
def pushFinish (f : BuildGeometryFilter) (finalStyle : Style) (gs : List DrawGeom)
    (ok : Bool) (passes : List Style) : PushResult :=
  let consolidated := f.featureNameExpr.isNone
  if ok then
    let stateApplied := !finalStyle.isEmpty
    let baseSize : ℚ :=
      match finalStyle.line with
      | some ls => max 1 ls.stroke.width
      | none => 1
    let ptSize : Option ℚ :=
      if stateApplied then
        match finalStyle.point with
        | some ps =>
          match ps.sizeOpt with
          | some sz => some sz
          | none => some baseSize
        | none => some baseSize
      else none
    { node := some
        { drawables := gs
          consolidated := consolidated
          pointSize := ptSize
          lineWidthState := if stateApplied then some baseSize else none
          delocalized := true }
      finalStyle := finalStyle
      passStyles := passes }
  else
    { node := none, finalStyle := finalStyle, passStyles := passes }

/-- BuildGeometryFilter::push (source lines 389-457).  When the style holds
both a polygon and a line symbol the input is processed twice: once with the
line symbol removed, once with the polygon symbol removed.  The source then
performs save.remove of PolygonSymbol on the saved copy as well, so the final
restore assigns the style without its polygon symbol.  none models a crash
inside process. -/
def push (c : Collab) (f : BuildGeometryFilter) (input : List Feature) (ctx : FilterContext) :
    Option PushResult :=
  if f.style.poly.isSome ∧ f.style.line.isSome then
    let save := f.style
    let style1 := save.removeLine
    match process c { f with style := style1 } input ctx with
    | none => none
    | some r1 =>
      let style2 := save.removePoly
      let save2 := save.removePoly
      match process c { f with style := style2 } input ctx with
      | none => none
      | some r2 => some (pushFinish f save2 (r1.1 ++ r2.1) r2.2 [style1, style2])
  else
    match process c f input ctx with
    | none => none
    | some r => some (pushFinish f f.style r.1 r.2 [f.style])

/-! Accessors used to state concrete evaluations of the model. -/

def partOutColors : PartOut → Option (List Color)
  | PartOut.emitted g => g.colors
  | _ => none

def partOutPrimSets : PartOut → List DrawArrays
  | PartOut.emitted g => g.primSets
  | _ => []

def partOutSubdivCall : PartOut → Option SubdivCall
  | PartOut.emitted g => g.subdivCall
  | _ => none

def partOutVertsLen : PartOut → ℕ
  | PartOut.emitted g => (g.verts.getD []).length
  | _ => 0

def pushPassList : Option PushResult → List Style
  | some r => r.passStyles
  | none => []

def pushFinalStyleOf : Option PushResult → Option Style
  | some r => some r.finalStyle
  | none => none

def pushNodeSome : Option PushResult → Bool
  | some r => r.node.isSome
  | none => false

def pushNodeDrawables : Option PushResult → List DrawGeom
  | some r =>
    match r.node with
    | some n => n.drawables
    | none => []
  | none => []

/-- A concrete collaborator instance used for evaluating the model at
specific inputs: identity transform, identity tessellator rewrite, identity
subdivider, doubled-point ribbon with 2(n-1) triangles. -/
def idCollab : Collab :=
  { xform := fun v => v
    tessRewrite := fun ps => ps
    subdivRun := fun _ vs ps => (vs, ps)
    ribbonVerts := fun _ pts => pts ++ pts
    ribbonTriCount := fun _ pts => 2 * (pts.length - 1) }

/-! Concrete fixtures for the claim witnesses and counterexamples. -/

def ctx0 : FilterContext :=
  { isGeoreferenced := false, mapIsGeocentric := false, hasFeatureIndex := false }

def ctxGeocentric : FilterContext :=
  { isGeoreferenced := true, mapIsGeocentric := true, hasFeatureIndex := false }

def redFill : PolygonSymbol := { fill := ⟨1, 0, 0, 1⟩ }

def bluePixelLine : LineSymbol :=
  { stroke := { color := ⟨0, 0, 1, 1⟩, width := 2, widthUnits := WidthUnits.PIXELS }
    tessellation := none }

def greenWorldLine : LineSymbol :=
  { stroke := { color := ⟨0, 1, 0, 1⟩, width := 5, widthUnits := WidthUnits.WORLD }
    tessellation := none }

def zeroTessLine : LineSymbol :=
  { stroke := { color := ⟨0, 0, 0, 1⟩, width := 1, widthUnits := WidthUnits.PIXELS }
    tessellation := some 0 }

def mkFilter (s : Style) : BuildGeometryFilter :=
  { style := s
    maxAngle_deg := 1
    geoInterp := GeoInterp.RHUMB_LINE
    featureNameExpr := none
    useVertexBufferObjects := true }

def mkFeature (ps : List GeoPart) : Feature :=
  { parts := ps, styleOv := none, geoInterp := none }

def styPolyOnly : Style := { point := none, line := none, poly := some redFill }

def styBoth : Style := { point := none, line := some bluePixelLine, poly := some redFill }

def styLinePixel : Style := { point := none, line := some bluePixelLine, poly := none }

def styLineWorld : Style := { point := none, line := some greenWorldLine, poly := none }

/-- A polygon part with a 2-point outer ring and a 1-point hole: total point
count 3 (so the polygon branch resolves) but own size 2 (so validation
skips). -/
def partSmallPoly : GeoPart :=
  { type := GeomType.POLYGON
    points := [(0, 0, 0), (1, 0, 0)]
    holes := [{ points := [(5, 5, 0)], validFlag := true }]
    validFlag := true }

/-- A valid triangle polygon part. -/
def partTriangle : GeoPart :=
  { type := GeomType.POLYGON
    points := [(0, 0, 0), (10, 0, 0), (10, 10, 0)]
    holes := []
    validFlag := true }

/-- A polygon part with three outer points whose outer ring the validator
rejects (degenerate or self-intersecting). -/
def partInvalidPoly : GeoPart :=
  { type := GeomType.POLYGON
    points := [(0, 0, 0), (1, 0, 0), (2, 0, 0)]
    holes := []
    validFlag := false }

/-- A square with one invalid hole followed by one valid hole. -/
def partSquareHoles : GeoPart :=
  { type := GeomType.POLYGON
    points := [(0, 0, 0), (10, 0, 0), (10, 10, 0), (0, 10, 0)]
    holes :=
      [ { points := [(1, 1, 0), (2, 1, 0), (1, 2, 0)], validFlag := false }
      , { points := [(5, 5, 0), (7, 5, 0), (7, 7, 0), (5, 7, 0)], validFlag := true } ]
    validFlag := true }

/-- A three-point line string part. -/
def partLine3 : GeoPart :=
  { type := GeomType.LINESTRING
    points := [(0, 0, 0), (1, 0, 0), (2, 1, 0)]
    holes := []
    validFlag := true }

/-- An override style whose line symbol requests tessellation 0. -/
def styOvTess0 : Style := { point := none, line := some zeroTessLine, poly := none }

/-- A feature carrying the zero-tessellation override style. -/
def featOvTess0 : Feature :=
  { parts := [partLine3], styleOv := some styOvTess0, geoInterp := none }

/-! ## Theorems -/

theorem osgDegreesToRadians_toReal (deg : ℚ) :
    (osgDegreesToRadians deg).toReal = (deg : ℝ) * Real.pi / 180 := by
  simp only [osgDegreesToRadians, Radians.toReal]
  push_cast
  ring

theorem transformAndLocalize_nil (c : Collab) (src : List Vec3) :
    transformAndLocalize c src [] = src.map c.xform := by
  simp [transformAndLocalize]

theorem buildPolyHoles_spec (c : Collab) (hs : List GeoRing) (pts : List Vec3)
    (ps : List DrawArrays) (off : ℕ) :
    buildPolyHoles c hs pts ps off =
      (pts ++ ((hs.filter fun h => h.isValid).map fun h => h.points.map c.xform).flatten,
       ps ++ holeLoopsSpec off (hs.filter fun h => h.isValid)) := by
  induction hs generalizing pts ps off with
  | nil => simp [buildPolyHoles, holeLoopsSpec]
  | cons hd rest ih =>
    simp only [buildPolyHoles]
    by_cases hv : hd.isValid
    · rw [if_pos hv, ih]
      simp [hv, holeLoopsSpec, transformAndLocalize, List.append_assoc]
    · rw [if_neg hv, ih]
      simp [hv]

theorem colorStep_subdivCall (g : DrawGeom) (col : Color) :
    (colorStep g col).subdivCall = g.subdivCall := rfl

theorem colorStep_verts (g : DrawGeom) (col : Color) :
    (colorStep g col).verts = g.verts := rfl

theorem colorStep_primSets (g : DrawGeom) (col : Color) :
    (colorStep g col).primSets = g.primSets := rfl

theorem colorStep_lineState (g : DrawGeom) (col : Color) :
    (colorStep g col).lineState = g.lineState := rfl

theorem colorStep_pointState (g : DrawGeom) (col : Color) :
    (colorStep g col).pointState = g.pointState := rfl

theorem applyPointBound_verts (m : PrimMode) (a : List Vec3) (g : DrawGeom) :
    (applyPointBound m a g).verts = g.verts := by
  unfold applyPointBound
  split <;> rfl

theorem applyPointBound_primSets (m : PrimMode) (a : List Vec3) (g : DrawGeom) :
    (applyPointBound m a g).primSets = g.primSets := by
  unfold applyPointBound
  split <;> rfl

theorem applyPointBound_subdivCall (m : PrimMode) (a : List Vec3) (g : DrawGeom) :
    (applyPointBound m a g).subdivCall = g.subdivCall := by
  unfold applyPointBound
  split <;> rfl

theorem applyPointBound_lineState (m : PrimMode) (a : List Vec3) (g : DrawGeom) :
    (applyPointBound m a g).lineState = g.lineState := by
  unfold applyPointBound
  split <;> rfl

theorem applyPointBound_pointState (m : PrimMode) (a : List Vec3) (g : DrawGeom) :
    (applyPointBound m a g).pointState = g.pointState := by
  unfold applyPointBound
  split <;> rfl

theorem buildPolygon_subdivCall (c : Collab) (ring : GeoPart) (t : Bool) (g : DrawGeom) :
    (buildPolygon c ring t g).subdivCall = g.subdivCall := by
  unfold buildPolygon
  split
  · split <;> split <;> rfl
  · rfl

theorem buildLinePoint_subdivCall (c : Collab) (g0 : DrawGeom) (lso : Option LineSymbol)
    (pso : Option PointSymbol) (rt : GeomType) (pts : List Vec3)
    (h : g0.subdivCall = none) :
    (buildLinePoint c g0 lso pso rt pts).subdivCall = none := by
  unfold buildLinePoint
  rw [applyPointBound_subdivCall]
  split
  · split
    · rfl
    · exact h
  · exact h

theorem processPartG1_subdivCall (c : Collab) (f : BuildGeometryFilter) (input : Feature)
    (part : GeoPart) :
    (processPartG1 c f input part).subdivCall = none := by
  simp only [processPartG1]
  split
  · rw [buildPolygon_subdivCall]
    rfl
  · exact buildLinePoint_subdivCall _ _ _ _ _ _ rfl

theorem subdivStep_subdivCall (c : Collab) (f : BuildGeometryFilter) (input : Feature)
    (mE : Bool) (rt : GeomType) (g : DrawGeom) (vs : List Vec3)
    (hg : g.subdivCall = none) :
    (subdivStep c f input mE rt g vs).subdivCall =
      if mE = true ∧ rt ≠ GeomType.POINTSET ∧ disableTess f = false then
        some ⟨osgDegreesToRadians f.maxAngle_deg, input.geoInterp.getD f.geoInterp⟩
      else none := by
  unfold subdivStep
  by_cases h1 : mE = true ∧ rt ≠ GeomType.POINTSET
  · rw [if_pos h1]
    by_cases h2 : mE = true ∧ disableTess f = false
    · rw [if_pos h2, if_pos ⟨h1.1, h1.2, h2.2⟩]
    · rw [if_neg h2, if_neg fun hc => h2 ⟨hc.1, hc.2.2⟩]
      exact hg
  · rw [if_neg h1, if_neg fun hc => h1 ⟨hc.1, hc.2.1⟩]
    exact hg

theorem subdivStep_verts_isSome (c : Collab) (f : BuildGeometryFilter) (input : Feature)
    (mE : Bool) (rt : GeomType) (g : DrawGeom) (vs : List Vec3)
    (hv : g.verts.isSome = true) :
    (subdivStep c f input mE rt g vs).verts.isSome = true := by
  unfold subdivStep
  split
  · split
    · rfl
    · exact hv
  · exact hv

theorem processPart_emitted_inv (c : Collab) (f : BuildGeometryFilter) (input : Feature)
    (part : GeoPart) (mE : Bool) (g : DrawGeom)
    (h : processPart c f input part mE = PartOut.emitted g) :
    ∃ vs, (processPartG1 c f input part).verts = some vs ∧
      g = colorStep
        (subdivStep c f input mE (resolveRenderType (activeStyle f input) part)
          (processPartG1 c f input part) vs)
        (primaryColorOf (activeStyle f input)) := by
  simp only [processPart] at h
  split at h
  · exact PartOut.noConfusion h
  · split at h
    · exact PartOut.noConfusion h
    · split at h
      · exact PartOut.noConfusion h
      · rename_i heq
        split at h
        · exact PartOut.noConfusion h
        · rename_i vs hvs
          injection h with h
          exact ⟨vs, hvs, h.symm⟩

theorem processPart_subdivCall (c : Collab) (f : BuildGeometryFilter) (input : Feature)
    (part : GeoPart) (mE : Bool) (g : DrawGeom)
    (h : processPart c f input part mE = PartOut.emitted g) :
    g.subdivCall =
      if mE = true ∧ resolveRenderType (activeStyle f input) part ≠ GeomType.POINTSET ∧
          disableTess f = false then
        some ⟨osgDegreesToRadians f.maxAngle_deg, input.geoInterp.getD f.geoInterp⟩
      else none := by
  obtain ⟨vs, hv, rfl⟩ := processPart_emitted_inv c f input part mE g h
  rw [colorStep_subdivCall]
  exact subdivStep_subdivCall c f input mE _ _ vs (processPartG1_subdivCall c f input part)

theorem processPart_colors (c : Collab) (f : BuildGeometryFilter) (input : Feature)
    (part : GeoPart) (mE : Bool) (g : DrawGeom)
    (h : processPart c f input part mE = PartOut.emitted g) :
    g.colors =
      some (List.replicate (g.verts.getD []).length (primaryColorOf (activeStyle f input))) ∧
    g.colorBinding = some ColorBinding.BIND_PER_VERTEX ∧
    g.verts.isSome = true := by
  obtain ⟨vs, hv, rfl⟩ := processPart_emitted_inv c f input part mE g h
  refine ⟨rfl, rfl, ?_⟩
  rw [colorStep_verts]
  exact subdivStep_verts_isSome c f input mE _ _ vs (by rw [hv]; rfl)

theorem pushFinish_passStyles (f : BuildGeometryFilter) (st : Style) (gs : List DrawGeom)
    (ok : Bool) (passes : List Style) :
    (pushFinish f st gs ok passes).passStyles = passes := by
  unfold pushFinish
  split <;> rfl

theorem pushFinish_finalStyle (f : BuildGeometryFilter) (st : Style) (gs : List DrawGeom)
    (ok : Bool) (passes : List Style) :
    (pushFinish f st gs ok passes).finalStyle = st := by
  unfold pushFinish
  split <;> rfl

theorem pushFinish_node_of_ok (f : BuildGeometryFilter) (st : Style) (gs : List DrawGeom)
    (passes : List Style) :
    (pushFinish f st gs true passes).node.isSome = true ∧
    pushNodeDrawables (some (pushFinish f st gs true passes)) = gs := by
  constructor <;> rfl

theorem process_ok (c : Collab) (f : BuildGeometryFilter) (features : List Feature)
    (ctx : FilterContext) (pr : List DrawGeom × Bool)
    (h : process c f features ctx = some pr) : pr.2 = true := by
  unfold process at h
  split at h
  · exact Option.noConfusion h
  · injection h with h
    rw [← h]

theorem push_inv (c : Collab) (f : BuildGeometryFilter) (input : List Feature)
    (ctx : FilterContext) (r : PushResult)
    (h : push c f input ctx = some r) :
    r.passStyles =
      (if f.style.poly.isSome ∧ f.style.line.isSome then
        [f.style.removeLine, f.style.removePoly]
      else [f.style]) ∧
    r.finalStyle =
      (if f.style.poly.isSome ∧ f.style.line.isSome then f.style.removePoly else f.style) ∧
    r.node.isSome = true := by
  simp only [push] at h
  by_cases hb : f.style.poly.isSome ∧ f.style.line.isSome
  · rw [if_pos hb] at h
    rcases h1 : process c { f with style := f.style.removeLine } input ctx with _ | r1
    · rw [h1] at h
      exact Option.noConfusion h
    · rw [h1] at h
      rcases h2 : process c { f with style := f.style.removePoly } input ctx with _ | r2
      · simp only [h2] at h
        exact Option.noConfusion h
      · simp only [h2] at h
        injection h with h
        have hok : r2.2 = true := process_ok c _ input ctx r2 h2
        rw [← h, if_pos hb, if_pos hb]
        refine ⟨pushFinish_passStyles _ _ _ _ _, pushFinish_finalStyle _ _ _ _ _, ?_⟩
        rw [hok]
        exact (pushFinish_node_of_ok f _ _ _).1
  · rw [if_neg hb] at h
    rcases h1 : process c f input ctx with _ | r1
    · rw [h1] at h
      exact Option.noConfusion h
    · rw [h1] at h
      injection h with h
      have hok : r1.2 = true := process_ok c f input ctx r1 h1
      rw [← h, if_neg hb, if_neg hb]
      refine ⟨pushFinish_passStyles _ _ _ _ _, pushFinish_finalStyle _ _ _ _ _, ?_⟩
      rw [hok]
      exact (pushFinish_node_of_ok f _ _ _).1

/-- Claim C1: for every leaf geometry part processed by process, the resolved
render type follows the priority order of the spec (polygon symbol with a
non-POINTSET part of total point count at least 3 gives POLYGON; otherwise a
line symbol gives RING for a POLYGON part and the part type otherwise;
otherwise a point symbol gives POINTSET; otherwise the part type), and after
resolution a part whose render type is POLYGON with fewer than 3 points, or
LINESTRING or RING with fewer than 2 points, is skipped. -/
theorem c1_render_type_resolution (s : Style) (p : GeoPart) (c : Collab)
    (f : BuildGeometryFilter) (input : Feature) (mE : Bool)
    (hs : activeStyle f input = s) (hp : 0 < p.size) :
    resolveRenderType s p = specRenderType s p ∧
    (((resolveRenderType s p = GeomType.POLYGON ∧ p.size < 3) ∨
      ((resolveRenderType s p = GeomType.LINESTRING ∨ resolveRenderType s p = GeomType.RING) ∧
        p.size < 2)) →
      processPart c f input p mE = PartOut.skipped) := by
  refine ⟨rfl, fun hsk => ?_⟩
  simp only [processPart, hs]
  rw [if_neg (by omega : ¬p.size = 0)]
  rcases hsk with ⟨h1, h2⟩ | ⟨h1, h2⟩
  · rw [if_pos ⟨h1, h2⟩]
  · have hne : ¬(resolveRenderType s p = GeomType.POLYGON ∧ p.size < 3) := by
      rcases h1 with h | h <;> simp [h]
    rw [if_neg hne, if_pos ⟨h1, h2⟩]

/-- Claim C1 witness: a concrete 2-point polygon part with a 1-point hole
under a polygon symbol resolves to POLYGON (total point count 3) and is
skipped by the size validation. -/
theorem c1_witness :
    processPart idCollab (mkFilter styPolyOnly) (mkFeature [partSmallPoly]) partSmallPoly false
      = PartOut.skipped ∧
    resolveRenderType styPolyOnly partSmallPoly = specRenderType styPolyOnly partSmallPoly := by
  have h := c1_render_type_resolution styPolyOnly partSmallPoly idCollab
    (mkFilter styPolyOnly) (mkFeature [partSmallPoly]) false rfl (by decide)
  exact ⟨h.2 (Or.inl ⟨by decide, by decide⟩), h.1⟩

/-- Claim C3 (code bug): push does not restore the original style.  For the
style with both a polygon and a line symbol, the saved copy is mutated by
save.remove of PolygonSymbol before the final restore, so after push the
stored style is the original minus its polygon symbol, which differs from the
original. -/
theorem c3_style_not_restored :
    (styBoth.poly.isSome ∧ styBoth.line.isSome) ∧
    pushFinalStyleOf (push idCollab (mkFilter styBoth) [] ctx0) = some styBoth.removePoly ∧
    styBoth.removePoly ≠ styBoth := by
  exact ⟨by decide, by decide, by decide⟩

/-- Claim C5 (code bug): a polygon part whose outer ring the validator
rejects is not silently skipped.  buildPolygon returns early without binding
a vertex array (the guard shows the skip intent), but process then reads the
null vertex array, which aborts the run instead of continuing with the next
part; an invalid hole ring, by contrast, is merely omitted while the outer
polygon is still built. -/
theorem c5_invalid_outer_ring :
    processPart idCollab (mkFilter styPolyOnly) (mkFeature [partInvalidPoly]) partInvalidPoly
      false = PartOut.crash ∧
    processParts idCollab (mkFilter styPolyOnly) (mkFeature [partInvalidPoly, partTriangle])
      false [partInvalidPoly, partTriangle] = none ∧
    (buildPolygon idCollab partInvalidPoly true (freshGeom (mkFilter styPolyOnly))).verts
      = none ∧
    (buildPolygon idCollab partSquareHoles false (freshGeom (mkFilter styPolyOnly))).primSets
      = [⟨PrimMode.GL_LINE_LOOP, 0, 4⟩, ⟨PrimMode.GL_LINE_LOOP, 4, 4⟩] ∧
    (buildPolygon idCollab partSquareHoles false (freshGeom (mkFilter styPolyOnly))).verts
      = some (partSquareHoles.points ++ [(5, 5, 0), (7, 5, 0), (7, 7, 0), (5, 7, 0)]) := by
  exact ⟨by decide, by decide, by decide, by decide, by decide⟩

theorem subdivStep_false (c : Collab) (f : BuildGeometryFilter) (input : Feature)
    (rt : GeomType) (g : DrawGeom) (vs : List Vec3) :
    subdivStep c f input false rt g vs = g := by
  unfold subdivStep
  rw [if_neg fun hc => Bool.noConfusion hc.1]

theorem processPartG1_nonpoly (c : Collab) (f : BuildGeometryFilter) (input : Feature)
    (part : GeoPart)
    (h : resolveRenderType (activeStyle f input) part ≠ GeomType.POLYGON) :
    processPartG1 c f input part =
      buildLinePoint c (freshGeom f) (activeStyle f input).line (activeStyle f input).point
        (resolveRenderType (activeStyle f input) part)
        (transformAndLocalize c part.points []) := by
  simp only [processPartG1]
  rw [if_neg h]

theorem buildLinePoint_world_eq (c : Collab) (g0 : DrawGeom) (ls : LineSymbol)
    (pso : Option PointSymbol) (rt : GeomType) (pts : List Vec3)
    (hw : ls.stroke.widthUnits ≠ WidthUnits.PIXELS) :
    buildLinePoint c g0 (some ls) pso rt pts =
      applyPointBound (primModeFor rt) pts (polygonizeLines c ls.stroke pts) := by
  simp only [buildLinePoint]
  rw [if_pos hw]

theorem buildLinePoint_pixel_eq (c : Collab) (g0 : DrawGeom) (lso : Option LineSymbol)
    (pso : Option PointSymbol) (rt : GeomType) (pts : List Vec3)
    (hpx : ∀ ls, lso = some ls → ls.stroke.widthUnits = WidthUnits.PIXELS) :
    buildLinePoint c g0 lso pso rt pts =
      applyPointBound (primModeFor rt) pts
        { g0 with
            primSets := [⟨primModeFor rt, 0, pts.length⟩]
            verts := some pts
            lineState := lso
            pointState := pso } := by
  cases lso with
  | none => rfl
  | some ls =>
    simp only [buildLinePoint]
    rw [if_neg (by simp [hpx ls rfl])]

/-- Claim C2: with both a polygon and a line symbol in the filter style, push
runs process exactly twice — first with the line symbol removed (filled
polygons only), then with the polygon symbol removed (outlines: a POLYGON
part then renders as RING, with the primary color taken from the line
stroke); with only one of the two symbols, process runs exactly once. -/
theorem c2_two_pass_composition (c : Collab) (f : BuildGeometryFilter) (input : List Feature)
    (ctx : FilterContext) (r : PushResult) (h : push c f input ctx = some r) :
    ((f.style.poly.isSome ∧ f.style.line.isSome) →
      r.passStyles = [f.style.removeLine, f.style.removePoly] ∧
      (f.style.removeLine).line = none ∧
      (f.style.removeLine).poly = f.style.poly ∧
      (f.style.removePoly).poly = none ∧
      (f.style.removePoly).line = f.style.line ∧
      (∀ p : GeoPart, p.type = GeomType.POLYGON → 3 ≤ p.getTotalPointCount →
        resolveRenderType f.style.removeLine p = GeomType.POLYGON ∧
        resolveRenderType f.style.removePoly p = GeomType.RING) ∧
      (∀ ls, f.style.line = some ls → primaryColorOf f.style.removePoly = ls.stroke.color)) ∧
    (¬(f.style.poly.isSome ∧ f.style.line.isSome) → r.passStyles = [f.style]) := by
  have hp := (push_inv c f input ctx r h).1
  constructor
  · intro hb
    rw [hp, if_pos hb]
    refine ⟨rfl, rfl, rfl, rfl, rfl, fun p hty hcnt => ⟨?_, ?_⟩, fun ls hls => ?_⟩
    · unfold resolveRenderType
      rw [if_pos ⟨hb.1, by rw [hty]; decide, hcnt⟩]
    · unfold resolveRenderType
      rw [if_neg fun hc => Bool.noConfusion hc.1,
        if_pos (show f.style.removePoly.line.isSome = true from hb.2), if_pos hty]
    · simp [primaryColorOf, Style.removePoly, hls]
  · intro hb
    rw [hp, if_neg hb]

/-- Claim C2 witness: for a concrete style with both symbols, push over an
empty feature list runs two passes, with the line symbol removed in the
first and the polygon symbol removed in the second. -/
theorem c2_witness :
    pushPassList (push idCollab (mkFilter styBoth) [] ctx0)
      = [styBoth.removeLine, styBoth.removePoly] := by
  rcases hp : push idCollab (mkFilter styBoth) [] ctx0 with _ | r
  · exact absurd hp (by decide)
  · have h := (c2_two_pass_composition idCollab (mkFilter styBoth) [] ctx0 r hp).1 (by decide)
    exact h.1

/-- Claim C4: for every emitted part geometry, the mesh subdivider runs if
and only if the output frame is geocentric, the resolved render type is not
POINTSET, and the filter-style line symbol does not set tessellation to 0;
when it runs, the threshold is maxAngle_deg converted to radians and the
interpolation mode is the per-feature mode when set, else the filter
default. -/
theorem c4_subdivider_invocation (c : Collab) (f : BuildGeometryFilter) (input : Feature)
    (part : GeoPart) (mE : Bool) (g : DrawGeom)
    (h : processPart c f input part mE = PartOut.emitted g) :
    g.subdivCall =
      (if mE = true ∧ resolveRenderType (activeStyle f input) part ≠ GeomType.POINTSET ∧
          disableTess f = false then
        some ⟨osgDegreesToRadians f.maxAngle_deg, input.geoInterp.getD f.geoInterp⟩
      else none) ∧
    (osgDegreesToRadians f.maxAngle_deg).toReal = (f.maxAngle_deg : ℝ) * Real.pi / 180 ∧
    (disableTess f = true ↔ ∃ ls, f.style.line = some ls ∧ ls.tessellation = some 0) ∧
    (∀ gi : GeoInterp, input.geoInterp = some gi → input.geoInterp.getD f.geoInterp = gi) ∧
    (input.geoInterp = none → input.geoInterp.getD f.geoInterp = f.geoInterp) := by
  refine ⟨processPart_subdivCall c f input part mE g h, osgDegreesToRadians_toReal _, ?_,
    fun gi hgi => by rw [hgi]; rfl, fun hn => by rw [hn]; rfl⟩
  unfold disableTess
  cases hl : f.style.line with
  | none => simp
  | some ls => simp

/-- Claim C4 witness: a pixel-width line string in geocentric output with no
tessellation sentinel gets a subdivider invocation with threshold 1 degree in
radians and the filter default rhumb-line interpolation. -/
theorem c4_witness :
    partOutSubdivCall
        (processPart idCollab (mkFilter styLinePixel) (mkFeature [partLine3]) partLine3 true)
      = some ⟨osgDegreesToRadians 1, GeoInterp.RHUMB_LINE⟩ := by
  rcases hp : processPart idCollab (mkFilter styLinePixel) (mkFeature [partLine3]) partLine3 true
    with _ | _ | g
  · exact absurd hp (by decide)
  · exact absurd hp (by decide)
  · have h := (c4_subdivider_invocation idCollab (mkFilter styLinePixel)
      (mkFeature [partLine3]) partLine3 true g hp).1
    show g.subdivCall = _
    rw [h, if_pos ⟨rfl, by decide, by decide⟩]
    rfl

/-- Claim C6: buildPolygon appends the transformed outer ring to a fresh
vertex array with a LINE_LOOP over it, appends each valid hole with a
LINE_LOOP at the offset accumulating the sizes of the outer ring and the
previously accepted holes, and, when tessellation is requested, invokes the
tessellator with GEOMETRY output and POSITIVE winding, rewriting the
primitive sets in place. -/
theorem c6_buildPolygon_layout (c : Collab) (ring : GeoPart) (g0 : DrawGeom)
    (hval : ring.isValid = true) (htype : ring.type = GeomType.POLYGON)
    (hps : g0.primSets = []) :
    (buildPolygon c ring false g0).verts =
      some (ring.points.map c.xform ++
        ((ring.holes.filter fun h => h.isValid).map fun h => h.points.map c.xform).flatten) ∧
    (buildPolygon c ring false g0).primSets =
      ⟨PrimMode.GL_LINE_LOOP, 0, ring.size⟩ ::
        holeLoopsSpec ring.size (ring.holes.filter fun h => h.isValid) ∧
    buildPolygon c ring true g0 =
      { buildPolygon c ring false g0 with
          tessCall := some ⟨TessType.TESS_TYPE_GEOMETRY, TessWinding.TESS_WINDING_POSITIVE⟩
          primSets := c.tessRewrite (buildPolygon c ring false g0).primSets } := by
  simp only [buildPolygon, hval, htype, if_true, if_pos, hps, buildPolyHoles_spec,
    transformAndLocalize_nil, List.nil_append]
  exact ⟨rfl, rfl, rfl⟩

/-- Claim C6 witness: a concrete square with one invalid and one valid hole:
the outer LINE_LOOP spans 0..4 and the accepted hole LINE_LOOP spans 4..8;
the invalid hole contributes nothing. -/
theorem c6_witness :
    (buildPolygon idCollab partSquareHoles false (freshGeom (mkFilter styLinePixel))).primSets
      = [⟨PrimMode.GL_LINE_LOOP, 0, 4⟩, ⟨PrimMode.GL_LINE_LOOP, 4, 4⟩] := by
  have h := c6_buildPolygon_layout idCollab partSquareHoles
    (freshGeom (mkFilter styLinePixel)) rfl rfl rfl
  rw [h.2.1]
  decide

/-- Claim C7: for a part with a non-polygon render type, a line symbol with
non-pixel width units routes the transformed polyline through the stroke
polygonizer, whose ribbon (vertex array plus a single TRIANGLES primitive)
replaces the draw geometry entirely; otherwise a single DrawArrays over the
whole array is emitted with LINE_STRIP for LINESTRING, LINE_LOOP for RING
and POINTS for POINTSET, and the line and point symbol render state is
applied. -/
theorem c7_line_point_builder (c : Collab) (f : BuildGeometryFilter) (input : Feature)
    (part : GeoPart) (g : DrawGeom) (s : Style)
    (hs : activeStyle f input = s)
    (hrt : resolveRenderType s part ≠ GeomType.POLYGON)
    (h : processPart c f input part false = PartOut.emitted g) :
    (∀ ls, s.line = some ls → ls.stroke.widthUnits ≠ WidthUnits.PIXELS →
      g.verts = some (c.ribbonVerts ls.stroke (part.points.map c.xform)) ∧
      g.primSets =
        [⟨PrimMode.GL_TRIANGLES, 0, c.ribbonTriCount ls.stroke (part.points.map c.xform)⟩]) ∧
    ((∀ ls, s.line = some ls → ls.stroke.widthUnits = WidthUnits.PIXELS) →
      g.verts = some (part.points.map c.xform) ∧
      g.primSets = [⟨primModeFor (resolveRenderType s part), 0, part.points.length⟩] ∧
      g.lineState = s.line ∧ g.pointState = s.point) ∧
    primModeFor GeomType.LINESTRING = PrimMode.GL_LINE_STRIP ∧
    primModeFor GeomType.RING = PrimMode.GL_LINE_LOOP ∧
    primModeFor GeomType.POINTSET = PrimMode.GL_POINTS := by
  subst hs
  obtain ⟨vs, hv, rfl⟩ := processPart_emitted_inv c f input part false g h
  have hg1 := processPartG1_nonpoly c f input part hrt
  refine ⟨fun ls hls hw => ⟨?_, ?_⟩, fun hpx => ?_, rfl, rfl, rfl⟩
  · rw [colorStep_verts, subdivStep_false, hg1, hls,
      buildLinePoint_world_eq c _ ls _ _ _ hw, applyPointBound_verts, transformAndLocalize_nil]
    rfl
  · rw [colorStep_primSets, subdivStep_false, hg1, hls,
      buildLinePoint_world_eq c _ ls _ _ _ hw, applyPointBound_primSets, transformAndLocalize_nil]
    rfl
  · have hbl := buildLinePoint_pixel_eq c (freshGeom f) (activeStyle f input).line
      (activeStyle f input).point (resolveRenderType (activeStyle f input) part)
      (transformAndLocalize c part.points []) hpx
    refine ⟨?_, ?_, ?_, ?_⟩
    · rw [colorStep_verts, subdivStep_false, hg1, hbl, applyPointBound_verts,
        transformAndLocalize_nil]
    · rw [colorStep_primSets, subdivStep_false, hg1, hbl, applyPointBound_primSets,
        transformAndLocalize_nil]
      simp
    · rw [colorStep_lineState, subdivStep_false, hg1, hbl, applyPointBound_lineState]
    · rw [colorStep_pointState, subdivStep_false, hg1, hbl, applyPointBound_pointState]

/-- Claim C7 witness: a three-point line string with a world-unit stroke
yields exactly one TRIANGLES primitive (the concrete collaborator ribbon has
2(n-1) = 4 triangles) and no LINE_STRIP, LINE_LOOP or POINTS primitive. -/
theorem c7_witness :
    partOutPrimSets
        (processPart idCollab (mkFilter styLineWorld) (mkFeature [partLine3]) partLine3 false)
      = [⟨PrimMode.GL_TRIANGLES, 0, 4⟩] := by
  rcases hp : processPart idCollab (mkFilter styLineWorld) (mkFeature [partLine3]) partLine3 false
    with _ | _ | g
  · exact absurd hp (by decide)
  · exact absurd hp (by decide)
  · have h := ((c7_line_point_builder idCollab (mkFilter styLineWorld) (mkFeature [partLine3])
      partLine3 g styLineWorld rfl (by decide) hp).1 greenWorldLine rfl (by decide)).2
    show g.primSets = _
    rw [h]
    decide

/-- Claim C8 (amended): process returns the success flag true whenever it
completes its run over the feature list, so the ok = false branch of push is
unreachable: push never signals failure by returning no node; a run that
produced no geometry returns a node whose drawable list is empty,
indistinguishable from a null mesh. -/
theorem c8_no_error_signal (c : Collab) (f : BuildGeometryFilter) (input : List Feature)
    (ctx : FilterContext) :
    (∀ pr, process c f input ctx = some pr → pr.2 = true) ∧
    (∀ r, push c f input ctx = some r → r.node.isSome = true) := by
  exact ⟨fun pr h => process_ok c f input ctx pr h,
    fun r h => (push_inv c f input ctx r h).2.2⟩

/-- Claim C8 witness: on a concrete completing input, push returns a node. -/
theorem c8_witness :
    pushNodeSome (push idCollab (mkFilter styLinePixel) [mkFeature [partLine3]] ctx0) = true := by
  rcases hp : push idCollab (mkFilter styLinePixel) [mkFeature [partLine3]] ctx0 with _ | r
  · exact absurd hp (by decide)
  · have h := (c8_no_error_signal idCollab (mkFilter styLinePixel) [mkFeature [partLine3]]
      ctx0).2 r hp
    exact h

/-- Claim C9: every emitted draw geometry carries a per-vertex color array
whose length equals the length of its vertex array, with every entry equal
to the primary color, chosen in strict order: polygon fill, else line
stroke, else point fill, else opaque white. -/
theorem c9_per_vertex_colors (c : Collab) (f : BuildGeometryFilter) (input : Feature)
    (part : GeoPart) (mE : Bool) (g : DrawGeom)
    (h : processPart c f input part mE = PartOut.emitted g) :
    g.colors = some (List.replicate (g.verts.getD []).length
      (primaryColorOf (activeStyle f input))) ∧
    g.colorBinding = some ColorBinding.BIND_PER_VERTEX ∧
    g.verts.isSome = true ∧
    (∀ s : Style, primaryColorOf s = specPrimaryColor s) := by
  have hc := processPart_colors c f input part mE g h
  refine ⟨hc.1, hc.2.1, hc.2.2, fun s => ?_⟩
  cases hpl : s.poly <;> cases hln : s.line <;> cases hpt : s.point <;>
    simp [primaryColorOf, specPrimaryColor, hpl, hln, hpt]

/-- Claim C9 witness: a pixel-width blue line string of three points gets a
color array of three blue entries, one per vertex. -/
theorem c9_witness :
    partOutColors
        (processPart idCollab (mkFilter styLinePixel) (mkFeature [partLine3]) partLine3 false)
      = some (List.replicate
          (partOutVertsLen
            (processPart idCollab (mkFilter styLinePixel) (mkFeature [partLine3]) partLine3
              false))
          (Color.mk 0 0 1 1)) ∧
    partOutVertsLen
        (processPart idCollab (mkFilter styLinePixel) (mkFeature [partLine3]) partLine3 false)
      = 3 := by
  constructor
  · rcases hp : processPart idCollab (mkFilter styLinePixel) (mkFeature [partLine3]) partLine3
      false with _ | _ | g
    · exact absurd hp (by decide)
    · exact absurd hp (by decide)
    · have h := (c9_per_vertex_colors idCollab (mkFilter styLinePixel) (mkFeature [partLine3])
        partLine3 false g hp).1
      show g.colors = some (List.replicate (g.verts.getD []).length (Color.mk 0 0 1 1))
      rw [h]
      rfl
  · decide

/-- Claim C10: per-feature style overrides have asymmetric reach: the style
consulted per part (render type, primary color, stroke test) is the override
when set, while the subdivision-suppression flag and the two-pass decision
of push consult only the style supplied at construction, so an override can
neither trigger the two-pass composition nor change whether subdivision is
suppressed. -/
theorem c10_override_asymmetry (c : Collab) (f : BuildGeometryFilter) (input : Feature)
    (part : GeoPart) (mE : Bool) (o : Style)
    (hov : input.styleOv = some o) :
    activeStyle f input = o ∧
    (∀ g, processPart c f input part mE = PartOut.emitted g →
      (g.subdivCall.isSome = true ↔
        (mE = true ∧ resolveRenderType o part ≠ GeomType.POINTSET ∧ disableTess f = false)) ∧
      g.colors = some (List.replicate (g.verts.getD []).length (primaryColorOf o))) ∧
    (∀ feats ctx r, push c f feats ctx = some r →
      r.passStyles.length = (if f.style.poly.isSome ∧ f.style.line.isSome then 2 else 1)) := by
  have ha : activeStyle f input = o := by simp [activeStyle, hov]
  refine ⟨ha, fun g hg => ⟨?_, ?_⟩, fun feats ctx r hr => ?_⟩
  · rw [processPart_subdivCall c f input part mE g hg, ha]
    by_cases hcond : mE = true ∧ resolveRenderType o part ≠ GeomType.POINTSET ∧
        disableTess f = false
    · rw [if_pos hcond]
      simp [hcond]
    · rw [if_neg hcond]
      simp [hcond]
  · have h := (processPart_colors c f input part mE g hg).1
    rw [ha] at h
    exact h
  · rw [(push_inv c f feats ctx r hr).1]
    split <;> rfl

/-- Claim C10 witness: the filter style has no line symbol while the feature
override carries a line symbol with tessellation 0; subdivision still runs
in geocentric mode, because the suppression check reads only the filter
style. -/
theorem c10_witness :
    (partOutSubdivCall
        (processPart idCollab (mkFilter styPolyOnly) featOvTess0 partLine3 true)).isSome
      = true := by
  rcases hp : processPart idCollab (mkFilter styPolyOnly) featOvTess0 partLine3 true
    with _ | _ | g
  · exact absurd hp (by decide)
  · exact absurd hp (by decide)
  · have h := ((c10_override_asymmetry idCollab (mkFilter styPolyOnly) featOvTess0 partLine3
      true styOvTess0 rfl).2.1 g hp).1
    show g.subdivCall.isSome = true
    exact h.mpr ⟨rfl, by decide, by decide⟩

/-- Claim C8 counterexample: an input whose only part is skipped (a 2-point
polygon) produces no geometry, yet push still returns a node — the node is
merely empty.  This refutes the reading that a no-geometry run is
communicated by returning no node. -/
theorem c8_counterexample :
    pushNodeSome (push idCollab (mkFilter styPolyOnly) [mkFeature [partSmallPoly]] ctx0)
      = true ∧
    pushNodeDrawables (push idCollab (mkFilter styPolyOnly) [mkFeature [partSmallPoly]] ctx0)
      = [] := by
  exact ⟨by decide, by decide⟩

end OsgEarth
